import Mathlib

/-!
Shallow embedding of the timeline-core component
(src/src/components/timeline-core.ts) of the frigate-hass-card repository.

Modelling conventions:
* Instants (JS Date values) are integers counting milliseconds; the JS Date
  constructor clips a fractional time value by truncating toward zero, which
  is Int.tdiv here.
* date-fns differenceInSeconds uses its default rounding method, truncation
  toward zero.
* date-fns add/sub with a duration of s seconds shift a date by s * 1000
  milliseconds computed in exact (real) arithmetic before the Date clip;
  half-integer millisecond shifts are therefore represented by doubling
  (working in half-milliseconds) followed by Int.tdiv by 2.
* JS optional values (undefined or null) are Option.
* External collaborators (the data source, the camera manager, the view
  factory functions) are oracles: function-valued or option-valued fields of
  the component state, constrained only where a claim constrains them.
-/

/-- A timeline window, start and end instants in milliseconds.  Mirrors the
vis-timeline TimelineWindow start and end fields; endT stands for the source
field named end, which is a reserved word in Lean. -/
structure TLWindow where
  start : Int
  endT : Int
deriving DecidableEq, Repr

/-- date-fns differenceInSeconds with the default truncating rounding:
whole seconds between two instants, rounded toward zero. -/
def differenceInSeconds (a b : Int) : Int :=
  Int.tdiv (a - b) 1000

/-- JS Date clip of a time value measured in half-milliseconds: truncation
toward zero of x2 / 2. -/
def jsClipHalf (x2 : Int) : Int :=
  Int.tdiv x2 2

/-- Media classification tag: the core only distinguishes event media from
recording media (ViewMediaClassifier.isEvent and isRecording). -/
inductive ViewMediaType
  | event
  | recording
  | other
deriving DecidableEq, Repr

/-- The slice of a ViewMedia item the timeline core reads: id, camera id,
classification, and start and end times (milliseconds).  getID can return
null and an event may have no end time yet, hence the Options. -/
structure ViewMedia where
  mediaType : ViewMediaType
  id : Option String
  cameraID : String
  startTime : Option Int
  endTime : Option Int
deriving DecidableEq, Repr

namespace ViewMediaClassifier

/-- ViewMediaClassifier.isEvent. -/
def isEvent (m : ViewMedia) : Bool :=
  m.mediaType = ViewMediaType.event

/-- ViewMediaClassifier.isRecording. -/
def isRecording (m : ViewMedia) : Bool :=
  m.mediaType = ViewMediaType.recording

end ViewMediaClassifier

/-- Source method _getPrefetchWindow: broaden a window by one
differenceInSeconds-length on each side (whole seconds, truncated). -/
def _getPrefetchWindow (window : TLWindow) : TLWindow :=
  let delta := differenceInSeconds window.endT window.start
  { start := window.start - delta * 1000
    endT := window.endT + delta * 1000 }

/-- Source method _getPerfectWindowFromMedia, with the configured window
seconds passed explicitly (the source reads it via
_getConfiguredWindowSeconds).  For an event with both bounds: if longer than
the configured window, the trailing windowSeconds ending at the end time;
else the event centered in a windowSeconds-long window (the half-gap shift
is a possibly half-integer number of milliseconds, clipped per Date
semantics).  For an event with only a start: the start centered.  For a
recording with both bounds: exactly the recording bounds. -/
def _getPerfectWindowFromMedia (windowSeconds : Int) (media : ViewMedia) :
    Option TLWindow :=
  if ViewMediaClassifier.isEvent media then
    match media.startTime, media.endTime with
    | some s, some e =>
      if e - s > windowSeconds * 1000 then
        some { start := e - windowSeconds * 1000, endT := e }
      else
        let gap2 := windowSeconds * 1000 - (e - s)
        some { start := jsClipHalf (2 * s - gap2), endT := jsClipHalf (2 * e + gap2) }
    | some s, none =>
      some { start := s - windowSeconds * 500, endT := s + windowSeconds * 500 }
    | none, _ => none
  else if ViewMediaClassifier.isRecording media then
    match media.startTime, media.endTime with
    | some s, some e => some { start := s, endT := e }
    | _, _ => none
  else none

/-- Modelled from the spec: the query-results collection of a View (the
media-queries results class is not part of the sources here).  An ordered
sequence of media items, an optional single selected index, and the
timestamp of when the results were fetched (getResultsTimestamp). -/
structure QueryResults where
  results : List ViewMedia
  selectedIndex : Option Nat
  resultsTimestamp : Option Int
deriving DecidableEq, Repr

namespace QueryResults

/-- Modelled from the spec: getSelectedResult returns the item at the
selected index when one is set. -/
def getSelectedResult (r : QueryResults) : Option ViewMedia :=
  r.selectedIndex.bind (fun i => r.results[i]?)

/-- Modelled from the spec: hasResults is true when the results sequence is
non-empty. -/
def hasResults (r : QueryResults) : Bool :=
  !r.results.isEmpty

/-- Modelled from the spec: hasSelectedResult is true when a selected result
exists. -/
def hasSelectedResult (r : QueryResults) : Bool :=
  r.getSelectedResult.isSome

/-- Modelled from the spec: resetSelectedResult clears the selection. -/
def resetSelectedResult (r : QueryResults) : QueryResults :=
  { r with selectedIndex := none }

/-- Modelled from the spec: selectResultIfFound selects the first result
satisfying the predicate, in place; when no result matches, the selection is
left unchanged. -/
def selectResultIfFound (r : QueryResults) (p : ViewMedia → Bool) : QueryResults :=
  match r.results.findIdx? p with
  | some i => { r with selectedIndex := some i }
  | none => r

end QueryResults

/-- A raw media query: the fields the core compares by deep equality (the
camera scope and the queried time range). -/
structure MediaQuery where
  cameraIDs : List String
  start : Int
  endT : Int
deriving DecidableEq, Repr

/-- Whether a MediaQueries object is an event-query or a recording-query
wrapper (the EventMediaQueries and RecordingMediaQueries classes). -/
inductive MediaQueryKind
  | events
  | recordings
deriving DecidableEq, Repr

/-- The View's query specification: its class kind plus the raw query list
returned by getQueries (which can be null). -/
structure MediaQueriesT where
  kind : MediaQueryKind
  queries : Option (List MediaQuery)
deriving DecidableEq, Repr

namespace MediaQueriesClassifier

/-- MediaQueriesClassifier.areRecordingQueries: true when the (possibly
absent) query specification is a recordings-type query. -/
def areRecordingQueries (q : Option MediaQueriesT) : Bool :=
  match q with
  | some qs => qs.kind = MediaQueryKind.recordings
  | none => false

end MediaQueriesClassifier

/-- The timeline slice of the view context: an optional explicit window. -/
structure TimelineViewContext where
  window : Option TLWindow
deriving DecidableEq, Repr

/-- The view context fields the timeline core reads or writes: the timeline
sub-context and the mediaViewer seek instruction. -/
structure ViewContextT where
  timeline : Option TimelineViewContext
  mediaViewerSeek : Option Int
deriving DecidableEq, Repr

/-- The slice of the externally owned immutable View the timeline core
reads: the view name (for is), viewer-ness (isViewerView), the query, the
query results and the context. -/
structure ViewT where
  viewName : String
  isViewer : Bool
  query : Option MediaQueriesT
  queryResults : Option QueryResults
  context : ViewContextT
deriving DecidableEq, Repr

/-- A vis-timeline item as enriched by the card (FrigateCardTimelineItem):
the vis id and type tag plus the back-reference to the media item. -/
structure FrigateCardTimelineItem where
  id : String
  type : Option String
  media : Option ViewMedia
deriving DecidableEq, Repr

/-- Modelled from the spec: the data source adapter (TimelineDataSource in
timeline-source.ts, not among the sources here).  getCacheFriendlyEventWindow
snaps a window to the caching granularity; getTimelineEventQueries builds the
raw event queries for a window, absent when no event query can be
constructed. -/
structure TimelineDataSourceT where
  getCacheFriendlyEventWindow : TLWindow → TLWindow
  getTimelineEventQueries : TLWindow → Option (List MediaQuery)

/-- Modelled from the spec: the camera manager collaborator, reduced to the
freshness judgment areMediaQueriesResultsFresh used by the core. -/
structure CameraManagerT where
  areMediaQueriesResultsFresh : List MediaQuery → Int → Bool

/-- The mutable state of the vis-timeline widget the core reads and writes:
its visible window (getWindow and setWindow) and its selection
(setSelection). -/
structure WidgetT where
  window : TLWindow
  selection : List String
deriving DecidableEq, Repr

/-- The TimelineCoreConfig fields the core reads. -/
structure TimelineCoreConfigT where
  window_seconds : Option Int
  clustering_threshold : Option Int
  show_recordings : Bool
deriving DecidableEq, Repr

/-- The _pointerHeld state: the TimelineEventPropertiesResult of the
mouseDown (its time field) extended with the widget window captured at
pointer-down. -/
structure PointerHeldT where
  time : Int
  window : Option TLWindow
deriving DecidableEq, Repr

/-- Options for createViewForRecordings calls made by the click handler. -/
structure RecordingsViewOptions where
  targetTime : Option Int
  cameraIDs : Option (List String)
  start : Option Int
  endT : Option Int
deriving DecidableEq, Repr

/-- Options of _createViewWithEventMediaQuery. -/
structure CreateViewOptions where
  targetView : Option String
  selectedItem : Option String
deriving DecidableEq, Repr

/-- The fields of the FrigateCardTimelineCore component relevant to the
embedded methods.  Presence of collaborators (hass, cameras, camera manager)
is modelled by Bool or Option; the asynchronous external view factories
createViewForEvents and createViewForRecordings are oracles giving the view
they would resolve to (null when they resolve to null). -/
structure FrigateCardTimelineCore where
  hass : Bool
  cameras : Option (List String)
  view : Option ViewT
  timelineConfig : Option TimelineCoreConfigT
  cameraManager : Option CameraManagerT
  mini : Bool
  _locked : Bool
  _timeline : Option WidgetT
  _timelineSource : Option TimelineDataSourceT
  _pointerHeld : Option PointerHeldT
  _ignoreClick : Bool
  createViewForEventsResult : Option ViewT
  createViewForRecordingsResult : RecordingsViewOptions → Option ViewT

/-- Modelled from the spec: default timeline window length in seconds, from
frigateCardConfigDefaults (types.ts, not among the sources here). -/
def frigateCardConfigDefaultsTimelineWindowSeconds : Int := 3600

/-- Source method _getConfiguredWindowSeconds: the configured window_seconds
or the package default. -/
def _getConfiguredWindowSeconds (timelineConfig : Option TimelineCoreConfigT) : Int :=
  match timelineConfig.bind TimelineCoreConfigT.window_seconds with
  | some s => s
  | none => frigateCardConfigDefaultsTimelineWindowSeconds

/-- Source method _isClustering: clustering is on when the configured
threshold is truthy and positive. -/
def _isClustering (timelineConfig : Option TimelineCoreConfigT) : Bool :=
  match timelineConfig.bind TimelineCoreConfigT.clustering_threshold with
  | some t => decide (t ≠ 0) && decide (t > 0)
  | none => false

/-- Modelled from the spec: rangesOverlap (camera-manager/range.ts, not
among the sources here) — whether two closed time ranges intersect. -/
def rangesOverlap (a b : TLWindow) : Bool :=
  decide (a.start ≤ b.endT) && decide (b.start ≤ a.endT)

/-- The clusterCriteria closure built in _getOptions: whether two timeline
items may be merged into one cluster.  The closure captures the component's
cameras map and current view; the media layer's isGroupableWith judgment is
an external oracle. -/
def clusterCriteria (cameras : Option (List String)) (view : Option ViewT)
    (isGroupableWith : ViewMedia → ViewMedia → Bool)
    (first second : FrigateCardTimelineItem) : Bool :=
  match cameras with
  | none => false
  | some _ =>
    let media := (view.bind ViewT.queryResults).bind QueryResults.getSelectedResult
    let selectedId := media.bind ViewMedia.id
    decide (first.type ≠ some "background") &&
    decide (first.type = second.type) &&
    decide (some first.id ≠ selectedId) &&
    decide (some second.id ≠ selectedId) &&
    first.media.isSome &&
    second.media.isSome &&
    (match first.media, second.media with
     | some fm, some sm =>
       ViewMediaClassifier.isEvent fm && ViewMediaClassifier.isEvent sm &&
       isGroupableWith fm sm
     | _, _ => false)

/-- Source method _createEventMediaQuerys: from the current (or supplied)
widget window, snap to a cache-friendly window and build the event queries;
absent when the widget or the data source is missing or when no query can be
built.  The EventMediaQueries wrapper is collapsed to its raw query list. -/
def _createEventMediaQuerys (timeline : Option WidgetT)
    (timelineSource : Option TimelineDataSourceT)
    (window : Option TLWindow) : Option (List MediaQuery) :=
  match timeline, timelineSource with
  | some t, some source =>
    let cacheFriendlyWindow := source.getCacheFriendlyEventWindow (window.getD t.window)
    source.getTimelineEventQueries cacheFriendlyWindow
  | _, _ => none

/-- Source method _alreadyHasAcceptableMediaQuery: the camera manager, the
current raw queries and the current results timestamp all exist, the current
queries deep-equal the fresh ones, and the camera manager judges the current
results fresh. -/
def _alreadyHasAcceptableMediaQuery (cameraManager : Option CameraManagerT)
    (view : Option ViewT) (freshMediaQuery : List MediaQuery) : Bool :=
  let currentQueries := (view.bind ViewT.query).bind MediaQueriesT.queries
  let currentResultTimestamp :=
    (view.bind ViewT.queryResults).bind QueryResults.resultsTimestamp
  match cameraManager, currentQueries, currentResultTimestamp with
  | some cm, some qs, some ts =>
    decide (qs = freshMediaQuery) && cm.areMediaQueriesResultsFresh qs ts
  | _, _, _ => false

/-- Source method _setWindowInContext: a timeline view context carrying the
supplied window (or, failing that, the widget's window, or the window of the
previous timeline context). -/
def _setWindowInContext (view : Option ViewT) (timeline : Option WidgetT)
    (window : Option TLWindow) : TimelineViewContext :=
  let newWindow :=
    match window with
    | some w => some w
    | none => timeline.map WidgetT.window
  { window :=
      match newWindow with
      | some w => some w
      | none => (view.bind (fun v => v.context.timeline)).bind TimelineViewContext.window }

/-- The mergeInContext call that installs a timeline sub-context on a view. -/
def ViewT.mergeInContextTimeline (v : ViewT) (tc : TimelineViewContext) : ViewT :=
  { v with context := { v.context with timeline := some tc } }

/-- The mergeInContext call that installs a mediaViewer seek instruction on
a view. -/
def ViewT.mergeInContextMediaViewerSeek (v : ViewT) (t : Int) : ViewT :=
  { v with context := { v.context with mediaViewerSeek := some t } }

/-- Source method _createViewWithEventMediaQuery.  The external
createViewForEvents call is the createViewForEventsResult oracle.  When a
selectedItem option is given, the new view's results select that id; when
not, the current view's selected item (when any) is re-selected in the new
results when present. -/
def _createViewWithEventMediaQuery (s : FrigateCardTimelineCore)
    (query : Option (List MediaQuery)) (options : Option CreateViewOptions) :
    Option ViewT :=
  match s.hass, s.cameraManager, s.cameras, s.view, query with
  | true, some _, some _, some curView, some _ =>
    match s.createViewForEventsResult with
    | none => none
    | some v =>
      match options.bind CreateViewOptions.selectedItem with
      | some sel =>
        some { v with queryResults :=
          v.queryResults.map (fun r => r.selectResultIfFound (fun m => m.id == some sel)) }
      | none =>
        match curView.queryResults.bind QueryResults.getSelectedResult with
        | some currentlySelectedResult =>
          some { v with queryResults :=
            v.queryResults.map (fun r =>
              r.selectResultIfFound (fun m => m.id == currentlySelectedResult.id)) }
        | none => some v
  | _, _, _, _, _ => none

/-- The desiredWindow computation of _updateTimelineFromView: an explicit
window in the view context always wins; else, when a selected media item
with a natural span exists and that span does not overlap the widget's
window, the perfect window for the media (when available); else the current
widget window. -/
def _updateDesiredWindow (view : ViewT) (config : TimelineCoreConfigT)
    (timelineWindow : TLWindow) : TLWindow :=
  let media := view.queryResults.bind QueryResults.getSelectedResult
  let mediaWindow : Option TLWindow :=
    match media, media.bind ViewMedia.startTime, media.bind ViewMedia.endTime with
    | some _, some a, some b => some { start := a, endT := b }
    | _, _, _ => none
  match (view.context.timeline).bind TimelineViewContext.window with
  | some w => w
  | none =>
    match media, mediaWindow with
    | some m, some mw =>
      if !rangesOverlap mw timelineWindow then
        match _getPerfectWindowFromMedia (_getConfiguredWindowSeconds (some config)) m with
        | some pw => pw
        | none => timelineWindow
      else timelineWindow
    | _, _ => timelineWindow

/-- The fresh event media query constructed at the end of a run of
_updateTimelineFromView; absent when the run returns early or no query can
be constructed. -/
def _updateFreshMediaQuery (s : FrigateCardTimelineCore) : Option (List MediaQuery) :=
  match s.hass, s.cameras, s.view, s.timelineConfig, s._timelineSource, s._timeline with
  | true, some _, some view, some config, some _, some widget =>
    _createEventMediaQuerys s._timeline s._timelineSource
      (some (_updateDesiredWindow view config widget.window))
  | _, _, _, _, _, _ => none

/-- Observable outcome of one run of _updateTimelineFromView: the widget
state after the run, the data-source refreshes issued, the rewriteEvent
calls issued, and the view dispatched by dispatchChangeEvent when any. -/
structure UpdateTimelineOutcome where
  _timeline : Option WidgetT
  refreshes : List TLWindow
  rewrites : List String
  dispatchedView : Option ViewT

/-- Source method _updateTimelineFromView: one run of the synchronization
cycle. -/
def _updateTimelineFromView (s : FrigateCardTimelineCore) : UpdateTimelineOutcome :=
  match s.hass, s.cameras, s.view, s.timelineConfig, s._timelineSource, s._timeline with
  | true, some _, some view, some config, some _, some widget =>
    let timelineWindow := widget.window
    let media := view.queryResults.bind QueryResults.getSelectedResult
    let desiredWindow := _updateDesiredWindow view config timelineWindow
    let prefetchedWindow := _getPrefetchWindow desiredWindow
    let refreshes := if s._pointerHeld.isNone then [prefetchedWindow] else []
    let mediaID := media.bind ViewMedia.id
    let rewrites :=
      match s._pointerHeld, media, mediaID with
      | none, some _, some mid => if _isClustering (some config) then [mid] else []
      | _, _, _ => []
    let desiredId : Option String :=
      match media with
      | some m => if ViewMediaClassifier.isEvent m then m.id else none
      | none => none
    let widget1 :=
      match desiredId with
      | some did => { widget with selection := [did] }
      | none => widget
    let widget2 :=
      if s._pointerHeld.isNone && decide (desiredWindow ≠ timelineWindow) then
        { widget1 with window := desiredWindow }
      else widget1
    let freshMediaQuery := _updateFreshMediaQuery s
    let dispatchedView :=
      match freshMediaQuery with
      | some fresh =>
        if !s.mini && !MediaQueriesClassifier.areRecordingQueries view.query &&
            !_alreadyHasAcceptableMediaQuery s.cameraManager s.view fresh then
          match _createViewWithEventMediaQuery s (some fresh) none with
          | some newView =>
            some (ViewT.mergeInContextTimeline newView
              (_setWindowInContext s.view s._timeline (some desiredWindow)))
          | none => none
        else none
      | none => none
    { _timeline := some widget2, refreshes := refreshes, rewrites := rewrites,
      dispatchedView := dispatchedView }
  | _, _, _, _, _, _ =>
    { _timeline := s._timeline, refreshes := [], rewrites := [], dispatchedView := none }

/-- The rangechange event payload: the new window, the underlying DOM event
type and hammerjs additional event, and whether the change is
user-initiated. -/
structure TimelineRangeChange where
  start : Int
  endT : Int
  eventType : String
  additionalEvent : Option String
  byUser : Bool
deriving DecidableEq, Repr

/-- Observable outcome of _timelineRangeChangeHandler: the _ignoreClick flag
after the run, the time passed to _setTargetBarAppropriately when called,
and the target time submitted to the throttled
_setViewDuringRangeChange when submitted. -/
structure RangeChangeOutcome where
  _ignoreClick : Bool
  targetBarTime : Option Int
  throttledCallTime : Option Int
deriving DecidableEq, Repr

/-- Source method _timelineRangeChangeHandler.  A held pointer marks the
next click ignored.  For user-initiated, non-wheel, non-pinch changes the
target time is the pointer-down anchor time shifted by the drift of the new
window start from the pointer-down window start (an absolute offset), or the
new window end when no pointer-down window was captured. -/
def _timelineRangeChangeHandler (s : FrigateCardTimelineCore)
    (properties : TimelineRangeChange) : RangeChangeOutcome :=
  let ignoreClick1 := if s._pointerHeld.isSome then true else s._ignoreClick
  if s._timeline.isSome && properties.byUser &&
      decide (properties.eventType ≠ "wheel") &&
      decide (properties.additionalEvent ≠ some "pinchin") &&
      decide (properties.additionalEvent ≠ some "pinchout") then
    let targetTime :=
      match s._pointerHeld with
      | some held =>
        match held.window with
        | some hw => properties.start + (held.time - hw.start)
        | none => properties.endT
      | none => properties.endT
    { _ignoreClick := ignoreClick1
      targetBarTime := if s._pointerHeld.isSome then some targetTime else none
      throttledCallTime := some targetTime }
  else
    { _ignoreClick := ignoreClick1, targetBarTime := none, throttledCallTime := none }

/-- date-fns startOfHour on a millisecond instant (idealized to UTC): floor
to the containing hour. -/
def startOfHour (t : Int) : Int := t - t % 3600000

/-- date-fns endOfHour on a millisecond instant (idealized to UTC): the last
millisecond of the containing hour. -/
def endOfHour (t : Int) : Int := startOfHour t + 3599999

/-- The click event payload fields the handler reads. -/
structure TimelineClickProps where
  what : Option String
  item : Option String
  group : Option String
  time : Int
deriving DecidableEq, Repr

/-- Observable outcome of _timelineClickHandler: whether card-wide actions
were suppressed, the dispatched view when any, the thumbnails open and close
signals, and the _ignoreClick flag after the run. -/
structure ClickOutcome where
  stoppedCardWideActions : Bool
  dispatchedView : Option ViewT
  thumbnailsOpen : Bool
  thumbnailsClose : Bool
  _ignoreClick : Bool
deriving DecidableEq, Repr

/-- Source method _timelineClickHandler: routes a click to a recordings
view, an item selection or a fresh event query, suppresses the click after a
drag, and signals the thumbnail drawer. -/
def _timelineClickHandler (s : FrigateCardTimelineCore)
    (properties : TimelineClickProps) : ClickOutcome :=
  let stopped := s._ignoreClick ||
    (match properties.what with
     | some w => ["item", "background", "group-label", "axis"].contains w
     | none => false)
  match s._timeline, s.cameras, s.view, s.cameraManager, properties.what, s.hass,
      s._ignoreClick with
  | some widget, some cams, some curView, some _, some what, true, false =>
    let showRecordings :=
      match s.timelineConfig with
      | some c => c.show_recordings
      | none => false
    let view1 : Option ViewT :=
      if showRecordings && (what == "background" || what == "group-label") then
        s.createViewForRecordingsResult
          { targetTime :=
              some (if what == "background" then properties.time else widget.window.endT)
            cameraIDs := properties.group.map (fun g => [g])
            start := none, endT := none }
      else if showRecordings && what == "axis" then
        s.createViewForRecordingsResult
          { targetTime := some properties.time
            cameraIDs := some cams
            start := some (startOfHour properties.time)
            endT := some (endOfHour properties.time) }
      else
        match properties.item with
        | some itm =>
          if what == "item" then
            let newResults := curView.queryResults.map (fun r =>
              (r.resetSelectedResult).selectResultIfFound (fun m => m.id == some itm))
            let fallback : Option ViewT :=
              match _createViewWithEventMediaQuery s
                  (_createEventMediaQuerys s._timeline s._timelineSource none)
                  (some { targetView := some "media", selectedItem := some itm }) with
              | some fullEventView =>
                if (fullEventView.queryResults.map QueryResults.hasResults).getD false then
                  some fullEventView
                else none
              | none => none
            let selected : Option ViewT :=
              match newResults with
              | some nr =>
                if nr.hasSelectedResult then
                  some { curView with queryResults := some nr }
                else fallback
              | none => fallback
            match selected with
            | some v =>
              if (v.queryResults.map QueryResults.hasResults).getD false then
                some (ViewT.mergeInContextMediaViewerSeek v properties.time)
              else some v
            | none => none
          else none
        | none => none
    match view1 with
    | some v =>
      { stoppedCardWideActions := stopped, dispatchedView := some v,
        thumbnailsOpen := curView.viewName == "timeline",
        thumbnailsClose := false, _ignoreClick := false }
    | none =>
      { stoppedCardWideActions := stopped, dispatchedView := none,
        thumbnailsOpen := false,
        thumbnailsClose := curView.viewName == "timeline", _ignoreClick := false }
  | _, _, _, _, _, _, _ =>
    { stoppedCardWideActions := stopped, dispatchedView := none,
      thumbnailsOpen := false, thumbnailsClose := false, _ignoreClick := s._ignoreClick }

/-- C4 counterexample: on the window from 0 to 1500 milliseconds (start ≤
end), _getPrefetchWindow does not return start minus len and end plus len
(which would be the window from -1500 to 3000): the margin is truncated to
whole seconds, giving the window from -1000 to 2500. -/
theorem prefetchWindow_not_exact_len_margin :
    (0 : Int) ≤ 1500 ∧
    _getPrefetchWindow { start := 0, endT := 1500 } ≠
      { start := 0 - (1500 - 0), endT := 1500 + (1500 - 0) } := by
  decide

/-- C4 amended: for every window with start ≤ end, _getPrefetchWindow
returns the window widened on each side by len truncated to whole seconds
(len over 1000, floored, times 1000 milliseconds); the result is centered on
the input, its length is 3 times len minus twice the sub-second remainder,
and it equals the window widened by exactly len on each side (length 3
times len) exactly when len is a whole number of seconds.  The function is a
pure function of its argument. -/
theorem prefetchWindow_truncated_margin (w : TLWindow) (h : w.start ≤ w.endT) :
    (_getPrefetchWindow w).start = w.start - (w.endT - w.start) / 1000 * 1000 ∧
    (_getPrefetchWindow w).endT = w.endT + (w.endT - w.start) / 1000 * 1000 ∧
    w.start - (_getPrefetchWindow w).start = (_getPrefetchWindow w).endT - w.endT ∧
    (_getPrefetchWindow w).endT - (_getPrefetchWindow w).start =
      3 * (w.endT - w.start) - 2 * ((w.endT - w.start) % 1000) ∧
    ((w.endT - w.start) % 1000 = 0 →
      _getPrefetchWindow w =
        { start := w.start - (w.endT - w.start), endT := w.endT + (w.endT - w.start) }) := by
  have h1 : Int.tdiv (w.endT - w.start) 1000 = (w.endT - w.start) / 1000 :=
    Int.tdiv_eq_ediv (by omega) (by omega)
  refine ⟨?_, ?_, ?_, ?_, ?_⟩ <;>
    simp only [_getPrefetchWindow, differenceInSeconds, h1, TLWindow.mk.injEq] <;>
    omega

/-- C4 witness: the amended theorem applied to the window from 0 to 3000
milliseconds, where the length is a whole number of seconds. -/
theorem prefetchWindow_truncated_margin_witness :
    (_getPrefetchWindow { start := 0, endT := 3000 }).start = 0 - 3000 / 1000 * 1000 ∧
    (_getPrefetchWindow { start := 0, endT := 3000 }).endT = 3000 + 3000 / 1000 * 1000 ∧
    (0 : Int) - (_getPrefetchWindow { start := 0, endT := 3000 }).start =
      (_getPrefetchWindow { start := 0, endT := 3000 }).endT - 3000 ∧
    (_getPrefetchWindow { start := 0, endT := 3000 }).endT -
      (_getPrefetchWindow { start := 0, endT := 3000 }).start = 3 * 3000 - 2 * 0 ∧
    ((3000 : Int) % 1000 = 0 →
      _getPrefetchWindow { start := 0, endT := 3000 } = { start := -3000, endT := 6000 }) := by
  have := prefetchWindow_truncated_margin { start := 0, endT := 3000 } (by decide)
  simpa using this

/-- C5 counterexample: with a configured window of 600 seconds and an event
from 1000000 to 1200001 milliseconds (duration below the window),
_getPerfectWindowFromMedia returns the window from 800000 to 1400000, whose
padding before the start (200000) differs from the padding after the end
(199999): the claimed equal padding fails on odd-millisecond gaps. -/
theorem perfectWindow_event_padding_uneven :
    _getPerfectWindowFromMedia 600
      { mediaType := .event, id := some "a", cameraID := "cam",
        startTime := some 1000000, endTime := some 1200001 } =
      some { start := 800000, endT := 1400000 } ∧
    (1000000 : Int) - 800000 ≠ 1400000 - 1200001 := by
  decide

/-- C5 amended: for an event media item with known start s and end e
(s ≤ e, milliseconds) and configured window S seconds, when the epoch guard
S·1000 ≤ s + e holds: if the duration exceeds S·1000 the returned window has
length exactly S·1000 and ends at e; otherwise the returned window has
length exactly S·1000, contains the event, and the padding before the start
exceeds the padding after the end by exactly one millisecond when the gap
S·1000 − (e − s) is odd, the two being equal when the gap is even. -/
theorem perfectWindow_event_spec (S s e : Int) (m : ViewMedia)
    (hm : m.mediaType = ViewMediaType.event)
    (hs : m.startTime = some s) (he : m.endTime = some e)
    (hse : s ≤ e) (hepoch : S * 1000 ≤ s + e) :
    ∃ w, _getPerfectWindowFromMedia S m = some w ∧
      (e - s > S * 1000 → w.endT = e ∧ w.endT - w.start = S * 1000) ∧
      (e - s ≤ S * 1000 →
        w.endT - w.start = S * 1000 ∧ w.start ≤ s ∧ e ≤ w.endT ∧
        (s - w.start) - (w.endT - e) =
          (if (S * 1000 - (e - s)) % 2 = 0 then 0 else 1)) := by
  by_cases hgt : e - s > S * 1000
  · refine ⟨{ start := e - S * 1000, endT := e }, ?_, ?_, ?_⟩
    · simp [_getPerfectWindowFromMedia, ViewMediaClassifier.isEvent, hm, hs, he, hgt]
    · intro _
      refine ⟨rfl, ?_⟩
      show e - (e - S * 1000) = S * 1000
      ring
    · intro hle
      exact absurd hle (by omega)
  · have hg2 : 0 ≤ 2 * s - (S * 1000 - (e - s)) := by omega
    have hg3 : 0 ≤ 2 * e + (S * 1000 - (e - s)) := by omega
    have e1 : jsClipHalf (2 * s - (S * 1000 - (e - s))) =
        (2 * s - (S * 1000 - (e - s))) / 2 := by
      simp only [jsClipHalf]
      exact Int.tdiv_eq_ediv hg2 (by omega)
    have e2 : jsClipHalf (2 * e + (S * 1000 - (e - s))) =
        (2 * e + (S * 1000 - (e - s))) / 2 := by
      simp only [jsClipHalf]
      exact Int.tdiv_eq_ediv hg3 (by omega)
    refine ⟨{ start := jsClipHalf (2 * s - (S * 1000 - (e - s))),
              endT := jsClipHalf (2 * e + (S * 1000 - (e - s))) }, ?_, ?_, ?_⟩
    · simp [_getPerfectWindowFromMedia, ViewMediaClassifier.isEvent, hm, hs, he, hgt]
    · intro hc
      exact absurd hc hgt
    · intro _
      dsimp only
      rw [e1, e2]
      by_cases hpar : (S * 1000 - (e - s)) % 2 = 0
      · rw [if_pos hpar]
        omega
      · rw [if_neg hpar]
        omega

/-- C5 witness: the amended theorem applied to S = 600 seconds and an event
from 400000 to 600000 milliseconds: the returned window has length exactly
600000 milliseconds. -/
theorem perfectWindow_event_spec_witness :
    ∃ w, _getPerfectWindowFromMedia 600
        { mediaType := .event, id := some "a", cameraID := "cam",
          startTime := some 400000, endTime := some 600000 } = some w ∧
      w.endT - w.start = 600 * 1000 := by
  obtain ⟨w, hw, -, hle⟩ :=
    perfectWindow_event_spec 600 400000 600000
      { mediaType := .event, id := some "a", cameraID := "cam",
        startTime := some 400000, endTime := some 600000 }
      rfl rfl rfl (by decide) (by decide)
  exact ⟨w, hw, (hle (by decide)).1⟩

/-- C6 confirmed: for a recording media item with known start and end,
_getPerfectWindowFromMedia returns exactly that start and end, with no
padding, for every configured window length S. -/
theorem perfectWindow_recording_exact (S s e : Int) (m : ViewMedia)
    (hm : m.mediaType = ViewMediaType.recording)
    (hs : m.startTime = some s) (he : m.endTime = some e) :
    _getPerfectWindowFromMedia S m = some { start := s, endT := e } := by
  simp [_getPerfectWindowFromMedia, ViewMediaClassifier.isEvent,
    ViewMediaClassifier.isRecording, hm, hs, he]

/-- C7 confirmed: clusterCriteria returns false whenever either item's id
equals the id of the currently selected media item (regardless of type
equality and of the groupability oracle), and false whenever either item's
associated media is classified as a recording. -/
theorem clusterCriteria_excludes_selected_and_recordings
    (cameras : Option (List String)) (view : Option ViewT)
    (isGroupableWith : ViewMedia → ViewMedia → Bool)
    (first second : FrigateCardTimelineItem) (X : String)
    (h : (((view.bind ViewT.queryResults).bind QueryResults.getSelectedResult).bind
            ViewMedia.id = some X ∧ (first.id = X ∨ second.id = X)) ∨
         (∃ fm, first.media = some fm ∧ fm.mediaType = ViewMediaType.recording) ∨
         (∃ sm, second.media = some sm ∧ sm.mediaType = ViewMediaType.recording)) :
    clusterCriteria cameras view isGroupableWith first second = false := by
  cases cameras with
  | none => rfl
  | some cs =>
    rcases h with ⟨hid, hf | hs2⟩ | ⟨fm, hfm, hrec⟩ | ⟨sm, hsm, hrec⟩
    · simp [clusterCriteria, hid, hf]
    · simp [clusterCriteria, hid, hs2]
    · cases hsm : second.media <;>
        simp [clusterCriteria, hfm, hsm, ViewMediaClassifier.isEvent, hrec]
    · cases hfm : first.media <;>
        simp [clusterCriteria, hfm, hsm, ViewMediaClassifier.isEvent, hrec]

/-- Concrete event media item selected in the C7 witness scenario. -/
def selMedia : ViewMedia :=
  { mediaType := .event, id := some "sel", cameraID := "cam",
    startTime := some 0, endTime := some 1 }

/-- Concrete second event media item of the C7 witness scenario. -/
def otherMedia : ViewMedia :=
  { mediaType := .event, id := some "other", cameraID := "cam",
    startTime := some 2, endTime := some 3 }

/-- Concrete view of the C7 witness scenario, with selMedia selected. -/
def selView : ViewT :=
  { viewName := "timeline", isViewer := false, query := none,
    queryResults := some { results := [selMedia], selectedIndex := some 0,
                           resultsTimestamp := none },
    context := { timeline := none, mediaViewerSeek := none } }

/-- C7 witness: two event items of the same type where the first is the
currently selected id are not cluster-eligible, even with an
always-groupable oracle. -/
theorem clusterCriteria_excludes_selected_and_recordings_witness :
    clusterCriteria (some ["cam"]) (some selView) (fun _ _ => true)
      { id := "sel", type := some "clip", media := some selMedia }
      { id := "other", type := some "clip", media := some otherMedia } = false := by
  apply clusterCriteria_excludes_selected_and_recordings _ _ _ _ _ "sel"
  exact Or.inl ⟨by decide, Or.inl rfl⟩

/-- C9 confirmed: when the camera map is absent, clusterCriteria returns
false for every pair of timeline items, every view and every groupability
oracle. -/
theorem clusterCriteria_false_without_cameras (view : Option ViewT)
    (isGroupableWith : ViewMedia → ViewMedia → Bool)
    (first second : FrigateCardTimelineItem) :
    clusterCriteria none view isGroupableWith first second = false := rfl

/-- Concrete component state for the C8 scenario: a pointer held at anchor
time 5000 with a pointer-down window from 0 to 10000, while the widget now
shows 0 to 20000. -/
def c8state : FrigateCardTimelineCore :=
  { hass := true, cameras := some ["cam"], view := none, timelineConfig := none,
    cameraManager := none, mini := false, _locked := false,
    _timeline := some { window := { start := 0, endT := 20000 }, selection := [] },
    _timelineSource := none,
    _pointerHeld := some { time := 5000, window := some { start := 0, endT := 10000 } },
    _ignoreClick := false,
    createViewForEventsResult := none,
    createViewForRecordingsResult := fun _ => none }

/-- Concrete user-initiated pan range change to the window 0 to 20000 for
the C8 scenario. -/
def c8props : TimelineRangeChange :=
  { start := 0, endT := 20000, eventType := "mousemove",
    additionalEvent := some "panleft", byUser := true }

/-- C8 counterexample: with a pointer hold anchored at 5000 over the
pointer-down window 0 to 10000 and a new window 0 to 20000, the handler
computes target time 5000 (the absolute offset from the new start), whereas
the claimed ratio interpolation (anchor minus old start, over old length,
times new length, from the new start) gives 10000. -/
theorem rangeChange_targetTime_not_ratio :
    (_timelineRangeChangeHandler c8state c8props).throttledCallTime = some 5000 ∧
    (0 : Int) + (5000 - 0) * (20000 - 0) / (10000 - 0) = 10000 ∧
    (5000 : Int) ≠ 10000 := by
  refine ⟨rfl, by decide, by decide⟩

/-- C8 amended: for a user-initiated, non-wheel, non-pinch range change with
the widget present: when a pointer hold with a captured pointer-down window
is active, the computed target time is the new window's start plus the
absolute offset of the anchor time from the pointer-down window's start (no
ratio scaling); when no pointer hold is active, it is the new window's
end. -/
theorem rangeChange_targetTime_offset (s : FrigateCardTimelineCore)
    (p : TimelineRangeChange)
    (ht : s._timeline.isSome = true) (hu : p.byUser = true)
    (hwheel : p.eventType ≠ "wheel")
    (hp1 : p.additionalEvent ≠ some "pinchin")
    (hp2 : p.additionalEvent ≠ some "pinchout") :
    (∀ held hwin, s._pointerHeld = some held → held.window = some hwin →
      (_timelineRangeChangeHandler s p).throttledCallTime =
        some (p.start + (held.time - hwin.start))) ∧
    (s._pointerHeld = none →
      (_timelineRangeChangeHandler s p).throttledCallTime = some p.endT) := by
  constructor
  · intro held hwin hheld hwindow
    simp [_timelineRangeChangeHandler, ht, hu, hheld, hwindow, hwheel, hp1, hp2]
  · intro hnone
    simp [_timelineRangeChangeHandler, ht, hu, hnone, hwheel, hp1, hp2]

/-- C8 witness: the amended theorem applied to the concrete C8 scenario. -/
theorem rangeChange_targetTime_offset_witness :
    (_timelineRangeChangeHandler c8state c8props).throttledCallTime =
      some (0 + (5000 - 0)) :=
  (rangeChange_targetTime_offset c8state c8props rfl rfl (by decide) (by decide)
      (by decide)).1
    { time := 5000, window := some { start := 0, endT := 10000 } }
    { start := 0, endT := 10000 } rfl rfl

/-- C6 witness: a concrete recording from 10000 to 99999 milliseconds under
a configured window of 600 seconds. -/
theorem perfectWindow_recording_exact_witness :
    _getPerfectWindowFromMedia 600
      { mediaType := .recording, id := some "r", cameraID := "cam",
        startTime := some 10000, endTime := some 99999 } =
      some { start := 10000, endT := 99999 } :=
  perfectWindow_recording_exact 600 10000 99999
    { mediaType := .recording, id := some "r", cameraID := "cam",
      startTime := some 10000, endTime := some 99999 } rfl rfl rfl

/-- Concrete component state for the C1 counterexample: a pointer hold is
active while the view's selected media is the event selMedia, and the
widget currently has an empty selection. -/
def c1state : FrigateCardTimelineCore :=
  { hass := true, cameras := some ["cam"], view := some selView,
    timelineConfig := some { window_seconds := some 600,
                             clustering_threshold := some 3,
                             show_recordings := true },
    cameraManager := none, mini := false, _locked := false,
    _timeline := some { window := { start := 0, endT := 1000 }, selection := [] },
    _timelineSource := some { getCacheFriendlyEventWindow := fun w => w,
                              getTimelineEventQueries := fun _ => none },
    _pointerHeld := some { time := 5, window := some { start := 0, endT := 1000 } },
    _ignoreClick := false,
    createViewForEventsResult := none,
    createViewForRecordingsResult := fun _ => none }

/-- C1 counterexample: with a pointer hold active, a run of
_updateTimelineFromView still modifies the widget's selection (setSelection
is not guarded by the pointer-hold check): on c1state the selection changes
from empty to the selected event's id. -/
theorem updateTimeline_setsSelection_duringHold :
    c1state._pointerHeld.isSome = true ∧
    (_updateTimelineFromView c1state)._timeline.map WidgetT.selection ≠
      c1state._timeline.map WidgetT.selection := by
  exact ⟨rfl, by decide⟩

/-- C1 amended: while a pointer hold is active, a run of
_updateTimelineFromView never modifies the widget's window, issues no
data-source refresh and no event rewrite; the widget's selection, however,
may still be set (to the currently selected event media item's id). -/
theorem updateTimeline_holdsWindow_noRefresh (s : FrigateCardTimelineCore)
    (h : s._pointerHeld.isSome = true) :
    (_updateTimelineFromView s)._timeline.map WidgetT.window =
      s._timeline.map WidgetT.window ∧
    (_updateTimelineFromView s).refreshes = [] ∧
    (_updateTimelineFromView s).rewrites = [] := by
  obtain ⟨held, hheld⟩ := Option.isSome_iff_exists.mp h
  unfold _updateTimelineFromView
  split
  · next cval view config sval widget h1 h2 h3 h4 h5 h6 =>
    refine ⟨?_, ?_, ?_⟩ <;> simp only [hheld, h6] <;> simp <;> split <;> simp_all
  · simp

/-- C1 witness: the amended theorem applied to c1state. -/
theorem updateTimeline_holdsWindow_noRefresh_witness :
    (_updateTimelineFromView c1state)._timeline.map WidgetT.window =
      c1state._timeline.map WidgetT.window ∧
    (_updateTimelineFromView c1state).refreshes = [] ∧
    (_updateTimelineFromView c1state).rewrites = [] :=
  updateTimeline_holdsWindow_noRefresh c1state rfl

/-- Concrete component state for the C2 counterexample: every collaborator
is present but the ignore-click flag is set when the click arrives. -/
def c2state : FrigateCardTimelineCore :=
  { hass := true, cameras := some ["cam"], view := some selView,
    timelineConfig := none,
    cameraManager := some { areMediaQueriesResultsFresh := fun _ _ => false },
    mini := false, _locked := false,
    _timeline := some { window := { start := 0, endT := 1000 }, selection := [] },
    _timelineSource := none,
    _pointerHeld := none, _ignoreClick := true,
    createViewForEventsResult := none,
    createViewForRecordingsResult := fun _ => none }

/-- Concrete click on an item for the C2 counterexample. -/
def c2props : TimelineClickProps :=
  { what := some "item", item := some "sel", group := none, time := 100 }

/-- C2 counterexample: entered with the ignore-click flag set, the click
handler takes its early-return path and returns with the flag still true —
the flag is not reset to false on that early return. -/
theorem clickHandler_flag_not_cleared_on_ignore :
    c2state._ignoreClick = true ∧
    (_timelineClickHandler c2state c2props)._ignoreClick = true :=
  ⟨rfl, rfl⟩

/-- C2 amended: the click handler returns with the ignore-click flag equal
to its value at entry: entered with the flag false — including the
early-return paths for missing collaborators or a missing click target —
it returns false; entered with the flag true (the ignore early-return path)
it returns with the flag still true, the reset to false being executed only
on the non-early-return paths (the flag is instead cleared at the next
pointer-down). -/
theorem clickHandler_flag_identity (s : FrigateCardTimelineCore)
    (p : TimelineClickProps) :
    (_timelineClickHandler s p)._ignoreClick = s._ignoreClick := by
  cases h1 : s._timeline <;> cases h2 : s.cameras <;> cases h3 : s.view <;>
    cases h4 : s.cameraManager <;> cases h5 : p.what <;> cases h6 : s.hass <;>
    cases h7 : s._ignoreClick <;>
    simp only [_timelineClickHandler, h1, h2, h3, h4, h5, h6, h7] <;>
    first
    | rfl
    | (split <;> rfl)

/-- C3 confirmed: a run of _updateTimelineFromView dispatches no view-change
event when the component is in mini mode, or the view's query is a
recordings-type query, or no fresh event query can be constructed, or the
freshly constructed query deep-equals the current view's query and the
camera manager judges the current results fresh
(_alreadyHasAcceptableMediaQuery). -/
theorem updateTimeline_noDispatch_when_acceptable (s : FrigateCardTimelineCore)
    (h : s.mini = true ∨
         MediaQueriesClassifier.areRecordingQueries (s.view.bind ViewT.query) = true ∨
         _updateFreshMediaQuery s = none ∨
         (∃ q, _updateFreshMediaQuery s = some q ∧
            _alreadyHasAcceptableMediaQuery s.cameraManager s.view q = true)) :
    (_updateTimelineFromView s).dispatchedView = none := by
  cases h1 : s.hass <;> cases h2 : s.cameras <;> cases h3 : s.view <;>
    cases h4 : s.timelineConfig <;> cases h5 : s._timelineSource <;>
    cases h6 : s._timeline <;>
    simp only [_updateTimelineFromView, h1, h2, h3, h4, h5, h6] <;>
    try rfl
  cases hF : _updateFreshMediaQuery s with
  | none => simp [hF]
  | some q =>
    rcases h with hmini | hrec | hfresh | ⟨q2, hq2, hacc⟩
    · simp [hF, hmini]
    · rw [h3] at hrec
      simp only [Option.some_bind] at hrec
      simp [hF, hrec]
    · exact absurd hfresh (by simp [hF])
    · rw [hF] at hq2
      injection hq2 with hqq
      subst hqq
      rw [h3] at hacc
      simp [hF, hacc]

/-- C3 witness: on c1state the fresh query cannot be constructed (the data
source returns no event queries), so no view-change is dispatched. -/
theorem updateTimeline_noDispatch_when_acceptable_witness :
    (_updateTimelineFromView c1state).dispatchedView = none :=
  updateTimeline_noDispatch_when_acceptable c1state (Or.inr (Or.inr (Or.inl rfl)))

/-- When some result satisfies the predicate, selectResultIfFound selects a
result satisfying the predicate. -/
theorem QueryResults.selectResultIfFound_selects (r : QueryResults)
    (p : ViewMedia → Bool) (h : ∃ m ∈ r.results, p m = true) :
    ∃ m, (r.selectResultIfFound p).getSelectedResult = some m ∧ p m = true := by
  unfold QueryResults.selectResultIfFound
  cases hF : r.results.findIdx? p with
  | none =>
    obtain ⟨m, hm, hp⟩ := h
    rw [List.findIdx?_eq_none_iff] at hF
    exact absurd (hF m hm) (by simp [hp])
  | some i =>
    obtain ⟨hlt, hp, -⟩ := List.findIdx?_eq_some_iff_getElem.mp hF
    refine ⟨r.results[i], ?_, hp⟩
    simp [QueryResults.getSelectedResult, List.getElem?_eq_getElem hlt]

/-- C10 confirmed: when _createViewWithEventMediaQuery is called without a
selectedItem option, the collaborators are present, the current view's
selected media item has id X, the external createViewForEvents oracle
produces a view whose results contain an item with id X — then the returned
view is non-null and its selected result has id X: the current selection
persists across the re-query. -/
theorem createViewWithEventMediaQuery_persists_selection
    (s : FrigateCardTimelineCore) (query : Option (List MediaQuery))
    (options : Option CreateViewOptions) (curView ov : ViewT)
    (cur : ViewMedia) (X : String) (r : QueryResults)
    (hview : s.view = some curView)
    (hopts : options.bind CreateViewOptions.selectedItem = none)
    (hcur : curView.queryResults.bind QueryResults.getSelectedResult = some cur)
    (hid : cur.id = some X)
    (hhass : s.hass = true)
    (hcm : s.cameraManager.isSome = true)
    (hcams : s.cameras.isSome = true)
    (hq : query.isSome = true)
    (horacle : s.createViewForEventsResult = some ov)
    (hres : ov.queryResults = some r)
    (hmem : ∃ m ∈ r.results, m.id = some X) :
    ∃ v, _createViewWithEventMediaQuery s query options = some v ∧
      (v.queryResults.bind QueryResults.getSelectedResult).bind ViewMedia.id =
        some X := by
  obtain ⟨cm, hcm2⟩ := Option.isSome_iff_exists.mp hcm
  obtain ⟨cams, hcams2⟩ := Option.isSome_iff_exists.mp hcams
  obtain ⟨qs, hq2⟩ := Option.isSome_iff_exists.mp hq
  have hmem2 : ∃ m ∈ r.results, (fun m => m.id == cur.id) m = true := by
    obtain ⟨m, hm, hmid⟩ := hmem
    exact ⟨m, hm, by simp [hmid, hid]⟩
  obtain ⟨m, hsel, hpm⟩ :=
    QueryResults.selectResultIfFound_selects r (fun m => m.id == cur.id) hmem2
  have hpm2 : (m.id == cur.id) = true := hpm
  unfold _createViewWithEventMediaQuery
  simp only [hhass, hcm2, hcams2, hview, hq2, horacle, hopts, hcur]
  refine ⟨_, rfl, ?_⟩
  simp only [hres, Option.map_some', Option.some_bind]
  rw [hsel, Option.some_bind, eq_of_beq hpm2, hid]

/-- Concrete result set of the C10 witness: the fresh query results contain
the previously selected item (id sel) in second position, unselected. -/
def c10results : QueryResults :=
  { results := [otherMedia, selMedia], selectedIndex := none,
    resultsTimestamp := none }

/-- Concrete view resolved by the external createViewForEvents oracle in
the C10 witness. -/
def c10oracleView : ViewT :=
  { viewName := "media", isViewer := true, query := none,
    queryResults := some c10results,
    context := { timeline := none, mediaViewerSeek := none } }

/-- Concrete component state of the C10 witness: the current view selects
selMedia (id sel) and the oracle resolves to c10oracleView. -/
def c10state : FrigateCardTimelineCore :=
  { hass := true, cameras := some ["cam"], view := some selView,
    timelineConfig := none,
    cameraManager := some { areMediaQueriesResultsFresh := fun _ _ => false },
    mini := false, _locked := false, _timeline := none, _timelineSource := none,
    _pointerHeld := none, _ignoreClick := false,
    createViewForEventsResult := some c10oracleView,
    createViewForRecordingsResult := fun _ => none }

/-- C10 witness: the persistence theorem applied to the concrete C10
state. -/
theorem createViewWithEventMediaQuery_persists_selection_witness :
    ∃ v, _createViewWithEventMediaQuery c10state (some []) none = some v ∧
      (v.queryResults.bind QueryResults.getSelectedResult).bind ViewMedia.id =
        some "sel" :=
  createViewWithEventMediaQuery_persists_selection c10state (some []) none
    selView c10oracleView selMedia "sel" c10results
    rfl rfl (by decide) rfl rfl rfl rfl rfl rfl rfl
    ⟨selMedia, by decide, rfl⟩
